import Mathlib

/-!
Verification of the license-status core of the offline license console
(`poc-offline-client`): the normalizer `normalizeLicenseStatus`, the
entitlement evaluator `canUse`, the presentation helper `disabledReason`,
and the status store's `loadStatus` refresh cycle, all shallowly embedded
from `src/frontend/src/context/LicenseContext.jsx` and the feature-gating
demo component.
-/

/-- A dynamically typed JavaScript value, as far as the license core
inspects one: `undefined`, `null`, booleans, numbers (integral — the
license documents carry no fractional numerics the core inspects),
strings, arrays and plain objects (ordered field lists with unique keys
in any value an object literal or JSON parse can produce). -/
inductive JSVal where
  | undefined
  | null
  | bool (b : Bool)
  | num (n : Int)
  | str (s : String)
  | arr (elems : List JSVal)
  | obj (fields : List (String × JSVal))

namespace JSVal

/-- JavaScript truthiness: `undefined`, `null`, `false`, `0` and `""` are
falsy; every array and object (even empty) is truthy. -/
def truthy : JSVal → Bool
  | .undefined => false
  | .null => false
  | .bool b => b
  | .num n => n != 0
  | .str s => s != ""
  | .arr _ => true
  | .obj _ => true

/-- First-match association-list lookup for object fields; absent keys
read as `undefined`, as property access does in JavaScript. -/
def lookupProp : List (String × JSVal) → String → JSVal
  | [], _ => .undefined
  | (k, v) :: rest, key => if k = key then v else lookupProp rest key

/-- Property access `v[key]`: field lookup on objects; `undefined` on
every non-object (the core only ever reads named, non-index keys, so
string/array index access never yields a value here). -/
def getProp (v : JSVal) (key : String) : JSVal :=
  match v with
  | .obj fields => lookupProp fields key
  | _ => .undefined

/-- The `in` operator restricted to how the core uses it: key presence
on a plain object; `false` elsewhere (arrays carry no named fields the
core ever stores). -/
def hasProp (v : JSVal) (key : String) : Bool :=
  match v with
  | .obj fields => fields.any (fun p => p.1 = key)
  | _ => false

/-- The `??` operator: keep `v` unless it is `undefined` or `null`. -/
def nullishOr (v d : JSVal) : JSVal :=
  match v with
  | .undefined => d
  | .null => d
  | _ => v

/-- The `||` operator as the core uses it (value-producing): keep `v`
when truthy, else the default. -/
def jsOr (v d : JSVal) : JSVal :=
  if truthy v then v else d

end JSVal

/-- The canonical normalized license snapshot built by
`normalizeLicenseStatus`. Fields other than `isValid` and `warnings`
hold whatever JavaScript value the defaulting expression produced. -/
structure LicenseSnapshot where
  status : JSVal
  statusMessage : JSVal
  isValid : Bool
  licenseId : JSVal
  customerName : JSVal
  editionCode : JSVal
  editionName : JSVal
  licenseType : JSVal
  validFrom : JSVal
  validUntil : JSVal
  features : JSVal
  limits : JSVal
  warnings : List JSVal
  raw : JSVal

/-- `normalizeLicenseStatus` from `LicenseContext.jsx`: falsy input gives
`null`; otherwise each field is defaulted with `??` (nullish), `||`
(truthiness) for `features`/`limits`, `Boolean` coercion for `is_valid`,
an `Array.isArray` guard for `warnings`, and the input kept under `raw`. -/
def normalizeLicenseStatus (raw : JSVal) : Option LicenseSnapshot :=
  if raw.truthy = false then
    none
  else
    some {
      status := (raw.getProp "status").nullishOr (.str "unknown")
      statusMessage := (raw.getProp "status_message").nullishOr (.str "")
      isValid := (raw.getProp "is_valid").truthy
      licenseId := (raw.getProp "license_id").nullishOr .null
      customerName := (raw.getProp "customer_name").nullishOr .null
      editionCode := (raw.getProp "edition_code").nullishOr .null
      editionName := (raw.getProp "edition_name").nullishOr .null
      licenseType := (raw.getProp "license_type").nullishOr .null
      validFrom := (raw.getProp "valid_from").nullishOr .null
      validUntil := (raw.getProp "valid_until").nullishOr .null
      features := (raw.getProp "features").jsOr (.obj [])
      limits := (raw.getProp "limits").jsOr (.obj [])
      warnings := match raw.getProp "warnings" with
        | .arr xs => xs
        | _ => []
      raw := raw
    }

/-- A feature key argument to `canUse`: `none` models a missing /
`null` / `undefined` argument, `some s` a string key. -/
def keyTruthy : Option String → Bool
  | none => false
  | some s => s != ""

/-- Reads the key as the string used for the `features[featureKey]`
lookup (only reached when the key is truthy, hence a non-empty string). -/
def keyString : Option String → String
  | none => ""
  | some s => s

/-- `canUse` from `LicenseContext.jsx`, with the closed-over `license`
state made an explicit argument: invalid or missing license denies all;
a falsy key grants on validity alone; otherwise the feature value found
in `license.features || {}` decides — `undefined` denies, a boolean is
returned directly, a non-null object grants unless it carries an
`enabled` field, whose `Boolean` coercion then decides, and every other
shape denies. -/
def canUse (license : Option LicenseSnapshot) (featureKey : Option String) : Bool :=
  match license with
  | none => false
  | some license =>
    if license.isValid = false then
      false
    else if keyTruthy featureKey = false then
      true
    else
      let features := license.features.jsOr (.obj [])
      let feature := features.getProp (keyString featureKey)
      match feature with
      | .undefined => false
      | .bool b => b
      | .obj fields =>
        if (JSVal.obj fields).hasProp "enabled" then
          ((JSVal.obj fields).getProp "enabled").truthy
        else
          true
      | .arr _ => true
      | _ => false

/-- The feature-flag variant resolution table as the spec's §4.2 states
it, written from the spec's words to compare against `canUse`: key not
present (`undefined`) denies; a boolean is returned directly; an object
value (in the JavaScript `typeof` sense, so arrays included) with an
`enabled` field returns that field's boolean coercion, without one it
grants; every other shape (string, number, null, ...) denies. -/
def resolveFeatureFlagSpec : JSVal → Bool
  | .undefined => false
  | .bool b => b
  | .obj fields =>
    if (JSVal.obj fields).hasProp "enabled" then
      ((JSVal.obj fields).getProp "enabled").truthy
    else
      true
  | .arr _ => true
  | _ => false

/-- JavaScript string coercion (`String(v)`, as a template literal
performs) for the values the core can interpolate: arrays join their
elements with commas, with `null`/`undefined` elements joining as empty
strings; plain objects print as `[object Object]`. -/
def jsToString : JSVal → String
  | .undefined => "undefined"
  | .null => "null"
  | .bool b => if b then "true" else "false"
  | .num n => toString n
  | .str s => s
  | .arr elems =>
    String.intercalate "," (elems.attach.map fun ⟨x, _hx⟩ =>
      match x with
      | .undefined => ""
      | .null => ""
      | y => jsToString y)
  | .obj _ => "[object Object]"

/-- `disabledReason` from the feature-gating demo component, with the
closed-over `license` made an explicit argument: `null` when allowed;
otherwise no-license, then invalid-license (echoing `license.status`),
then feature-not-granted, in that order. -/
def disabledReason (license : Option LicenseSnapshot) (featureKey : String)
    (allowed : Bool) : Option String :=
  if allowed then
    none
  else
    match license with
    | none => some "No license installed"
    | some license =>
      if license.isValid = false then
        some ("License status: " ++ jsToString license.status)
      else
        some ("Feature \x27" ++ featureKey ++ "\x27 is not granted in this license")

/-- The status store's state: the current snapshot (`license`), the
`loading` flag and the last fetch failure (`error`), mirroring the three
`useState` cells of `LicenseProvider`. -/
structure StoreState where
  license : Option LicenseSnapshot
  loading : Bool
  error : Option String

/-- One state mutation issued by `loadStatus` (a `setLicense`,
`setLoading` or `setError` call). -/
inductive StoreEvent where
  | setLicense (l : Option LicenseSnapshot)
  | setLoading (b : Bool)
  | setError (e : Option String)

/-- Applies one setter to the store state. -/
def applyEvent (s : StoreState) : StoreEvent → StoreState
  | .setLicense l => { s with license := l }
  | .setLoading b => { s with loading := b }
  | .setError e => { s with error := e }

/-- Runs a sequence of setters left to right. -/
def runEvents (s : StoreState) (events : List StoreEvent) : StoreState :=
  events.foldl applyEvent s

/-- The exact sequence of setter calls one `loadStatus` cycle issues,
indexed by what the awaited `fetchLicenseStatus()` did: the `try` block
normalizes and installs the result; the `catch` block records the error
and clears the license; the `finally` block clears `loading` last in
both outcomes. The `catch` swallows the failure, so a cycle is a total
function into a state, never a thrown error. -/
def loadStatusEvents (fetched : Except String JSVal) : List StoreEvent :=
  [.setLoading true, .setError none] ++
  (match fetched with
    | .ok raw => [.setLicense (normalizeLicenseStatus raw)]
    | .error err => [.setError (some err), .setLicense none]) ++
  [.setLoading false]

/-- One full `loadStatus` refresh cycle as a state transformer. -/
def loadStatus (fetched : Except String JSVal) (s : StoreState) : StoreState :=
  runEvents s (loadStatusEvents fetched)

/-- A sample valid snapshot carrying the spec's §8 feature table, used
to instantiate proved theorems at concrete inputs. -/
def sampleSnapshot : LicenseSnapshot :=
  { status := .str "active", statusMessage := .str "", isValid := true,
    licenseId := .null, customerName := .null, editionCode := .null,
    editionName := .null, licenseType := .null, validFrom := .null,
    validUntil := .null,
    features := .obj [("a", .bool true), ("b", .bool false),
      ("c", .obj [("enabled", .bool true)]),
      ("d", .obj [("enabled", .bool false)]),
      ("e", .obj [("note", .str "x")])],
    limits := .obj [], warnings := [], raw := .obj [] }

/-- Looking a key up in `features || {}` is the same as looking it up in
`features` directly: the `||` default only replaces falsy values, and
property access on any falsy value already reads as `undefined`. -/
theorem getProp_jsOr_obj (v : JSVal) (k : String) :
    (v.jsOr (.obj [])).getProp k = v.getProp k := by
  unfold JSVal.jsOr
  split
  · rfl
  · cases v <;> simp_all [JSVal.truthy, JSVal.getProp, JSVal.lookupProp]

/-- C1: for every snapshot with `isValid` true and every non-empty
feature key, `canUse` returns exactly the spec's feature-flag variant
resolution of the value found at that key in `snapshot.features`: key
not present is `false`, a boolean is returned directly, an object value
with an `enabled` field gives that field's boolean coercion, an object
value without one gives `true`, and any other value shape gives
`false`. -/
theorem canUse_matches_variant_resolution (s : LicenseSnapshot) (k : String)
    (hv : s.isValid = true) (hk : k ≠ "") :
    canUse (some s) (some k) = resolveFeatureFlagSpec (s.features.getProp k) := by
  have hkey : keyTruthy (some k) = true := by
    simp [keyTruthy, hk]
  simp only [canUse, hv, hkey, keyString]
  rw [getProp_jsOr_obj]
  cases s.features.getProp k <;> rfl

/-- Witness for C1 at the spec's §8 table: the descriptor without an
`enabled` field (key `e`) resolves to granted, and `canUse` agrees. -/
theorem canUse_matches_variant_resolution_witness :
    canUse (some sampleSnapshot) (some "e") =
      resolveFeatureFlagSpec (sampleSnapshot.features.getProp "e") ∧
    canUse (some sampleSnapshot) (some "e") = true :=
  ⟨canUse_matches_variant_resolution sampleSnapshot "e" rfl (by decide), by decide⟩

/-- C2: a missing snapshot, or one whose `isValid` is false, denies
every feature key no matter what `features` holds. -/
theorem canUse_invalid_license_denies (license : Option LicenseSnapshot)
    (k : Option String)
    (h : license = none ∨ ∃ s, license = some s ∧ s.isValid = false) :
    canUse license k = false := by
  rcases h with rfl | ⟨s, rfl, hs⟩
  · rfl
  · simp [canUse, hs]

/-- Witness for C2: with no snapshot installed, feature `a` is denied. -/
theorem canUse_invalid_license_denies_witness :
    canUse none (some "a") = false :=
  canUse_invalid_license_denies none (some "a") (Or.inl rfl)

/-- C8: with a valid snapshot, an absent or empty feature key is
granted on validity alone. -/
theorem canUse_empty_key_grants (s : LicenseSnapshot) (hv : s.isValid = true) :
    canUse (some s) none = true ∧ canUse (some s) (some "") = true := by
  constructor <;> simp [canUse, hv, keyTruthy]

/-- Witness for C8 at the sample valid snapshot. -/
theorem canUse_empty_key_grants_witness :
    canUse (some sampleSnapshot) none = true ∧
    canUse (some sampleSnapshot) (some "") = true :=
  canUse_empty_key_grants sampleSnapshot rfl

/-- C9: `canUse` reads nothing from a snapshot beyond `isValid` and
`features`: two snapshots agreeing on those two fields evaluate every
feature key identically, whatever their status, messages, limits,
warnings or raw documents. -/
theorem canUse_depends_only_on_isValid_and_features
    (s1 s2 : LicenseSnapshot) (hvalid : s1.isValid = s2.isValid)
    (hfeat : s1.features = s2.features) (k : Option String) :
    canUse (some s1) k = canUse (some s2) k := by
  simp only [canUse]
  rw [hvalid, hfeat]

/-- A second snapshot agreeing with the sample one only on `isValid`
and `features`, differing everywhere else. -/
def sampleSnapshotAlt : LicenseSnapshot :=
  { sampleSnapshot with
    status := .str "grace_period", statusMessage := .str "renew soon",
    licenseId := .str "L-1", customerName := .str "Acme",
    limits := .obj [("seats", .num 5)], warnings := [.str "expiring"],
    raw := .obj [("is_valid", .bool true)] }

/-- Witness for C9: the sample snapshot and its differently-decorated
variant agree on `canUse` for key `b`. -/
theorem canUse_depends_only_on_isValid_and_features_witness :
    canUse (some sampleSnapshot) (some "b") =
      canUse (some sampleSnapshotAlt) (some "b") :=
  canUse_depends_only_on_isValid_and_features sampleSnapshot sampleSnapshotAlt
    rfl rfl (some "b")

/-- A raw status document whose `status` field is present but carries a
number instead of a string, whose `status_message` carries a boolean,
and whose `warnings` field is not an array. -/
def wrongTypedRaw : JSVal :=
  .obj [("status", .num 42), ("status_message", .bool true),
    ("warnings", .num 3)]

/-- The snapshot `normalizeLicenseStatus` builds from `wrongTypedRaw`. -/
def wrongTypedSnap : LicenseSnapshot :=
  { status := .num 42, statusMessage := .bool true, isValid := false,
    licenseId := .null, customerName := .null, editionCode := .null,
    editionName := .null, licenseType := .null, validFrom := .null,
    validUntil := .null, features := .obj [], limits := .obj [],
    warnings := [], raw := wrongTypedRaw }

/-- C3 counterexample: the claim says a wrongly-typed `status` (absent
or not a string) becomes `"unknown"`, but on the document whose `status`
is the number `42` the normalizer keeps the number: `??` only replaces
`null`/`undefined`, it performs no type check. -/
theorem normalize_keeps_wrongly_typed_status :
    (normalizeLicenseStatus wrongTypedRaw).map LicenseSnapshot.status =
      some (.num 42) ∧
    JSVal.num 42 ≠ JSVal.str "unknown" :=
  ⟨rfl, fun hc => JSVal.noConfusion hc⟩

/-- C3 amended: for every document the normalizer accepts, the raw
document is preserved verbatim under `raw`, `isValid` is the truthiness
coercion of `is_valid`, the nullish-defaulted fields (`status`,
`statusMessage`) take their default exactly when the raw value is absent
or null and otherwise are kept as-is even when mistyped, `features` and
`limits` become `{}` exactly when the raw value is falsy and otherwise
are kept as-is even when not a mapping, and `warnings` becomes `[]`
whenever the raw value is not an array. -/
theorem normalize_defaults_characterization (raw : JSVal) (s : LicenseSnapshot)
    (h : normalizeLicenseStatus raw = some s) :
    s.raw = raw ∧
    s.isValid = (raw.getProp "is_valid").truthy ∧
    ((raw.getProp "status" = .undefined ∨ raw.getProp "status" = .null) →
      s.status = .str "unknown") ∧
    (raw.getProp "status" ≠ .undefined → raw.getProp "status" ≠ .null →
      s.status = raw.getProp "status") ∧
    ((raw.getProp "status_message" = .undefined ∨ raw.getProp "status_message" = .null) →
      s.statusMessage = .str "") ∧
    (raw.getProp "status_message" ≠ .undefined → raw.getProp "status_message" ≠ .null →
      s.statusMessage = raw.getProp "status_message") ∧
    ((raw.getProp "features").truthy = false → s.features = .obj []) ∧
    ((raw.getProp "features").truthy = true → s.features = raw.getProp "features") ∧
    ((raw.getProp "limits").truthy = false → s.limits = .obj []) ∧
    ((raw.getProp "limits").truthy = true → s.limits = raw.getProp "limits") ∧
    ((∀ xs, raw.getProp "warnings" ≠ .arr xs) → s.warnings = []) := by
  unfold normalizeLicenseStatus at h
  split at h
  · exact absurd h (by simp)
  · injection h with h
    subst h
    refine ⟨rfl, rfl, ?_, ?_, ?_, ?_, ?_, ?_, ?_, ?_, ?_⟩
    · rintro (hs | hs) <;> rw [hs] <;> rfl
    · intro h1 h2
      cases hs : raw.getProp "status" <;> simp_all [JSVal.nullishOr]
    · rintro (hs | hs) <;> rw [hs] <;> rfl
    · intro h1 h2
      cases hs : raw.getProp "status_message" <;> simp_all [JSVal.nullishOr]
    · intro hf
      simp [JSVal.jsOr, hf]
    · intro hf
      simp [JSVal.jsOr, hf]
    · intro hl
      simp [JSVal.jsOr, hl]
    · intro hl
      simp [JSVal.jsOr, hl]
    · intro hne
      cases hw : raw.getProp "warnings" <;> simp_all

/-- Witness for the amended C3 at `wrongTypedRaw`: the mistyped status
and status message are kept as-is and the mistyped warnings degrade to
the empty list. -/
theorem normalize_defaults_characterization_witness :
    wrongTypedSnap.status = .num 42 ∧
    wrongTypedSnap.statusMessage = .bool true ∧
    wrongTypedSnap.warnings = [] := by
  obtain ⟨hraw, hvalid, hdef, hkeep, hmsg, hmsgKeep, hf0, hf1, hl0, hl1, hw⟩ :=
    normalize_defaults_characterization wrongTypedRaw wrongTypedSnap rfl
  refine ⟨?_, ?_, hw (fun xs hc => JSVal.noConfusion hc)⟩
  · rw [hkeep (fun hc => JSVal.noConfusion hc) (fun hc => JSVal.noConfusion hc)]
    rfl
  · rw [hmsgKeep (fun hc => JSVal.noConfusion hc) (fun hc => JSVal.noConfusion hc)]
    rfl

/-- C4: over the contract's input domain (`null` or a raw mapping), the
normalizer returns `null` exactly on `null`, and on every document —
`{}` and wrongly-typed fields included — it returns some fully built
snapshot. -/
theorem normalize_null_iff_snapshot_otherwise (raw : JSVal)
    (h : raw = .null ∨ ∃ fields, raw = .obj fields) :
    (normalizeLicenseStatus raw = none ↔ raw = .null) ∧
    (raw ≠ .null → ∃ s, normalizeLicenseStatus raw = some s) := by
  rcases h with rfl | ⟨fields, rfl⟩
  · exact ⟨⟨fun _ => rfl, fun _ => rfl⟩, fun hne => absurd rfl hne⟩
  · refine ⟨⟨fun hnone => ?_, fun hnull => JSVal.noConfusion hnull⟩,
      fun _ => ⟨_, rfl⟩⟩
    exact absurd hnone (by simp [normalizeLicenseStatus, JSVal.truthy])

/-- Witness for C4 at the empty document `{}`: it is not sent to `null`
and a snapshot exists for it. -/
theorem normalize_null_iff_snapshot_otherwise_witness :
    (normalizeLicenseStatus (.obj []) = none ↔ (JSVal.obj []) = .null) ∧
    ((JSVal.obj []) ≠ .null → ∃ s, normalizeLicenseStatus (.obj []) = some s) :=
  normalize_null_iff_snapshot_otherwise (.obj []) (Or.inr ⟨[], rfl⟩)

/-- C5: when the awaited fetch fails, the refresh cycle ends with no
snapshot, the failure recorded as the last error, and `loading` false;
the cycle is a total state transformer (the `catch` swallows the
failure, so nothing is rethrown to the caller), and in both the success
and the failure outcome the very last setter issued is the `finally`
block's `setLoading false`. -/
theorem loadStatus_failure_outcome (err : String) (s0 : StoreState)
    (fetched : Except String JSVal) :
    (loadStatus (.error err) s0).license = none ∧
    (loadStatus (.error err) s0).error = some err ∧
    (loadStatus (.error err) s0).loading = false ∧
    (loadStatusEvents fetched).getLast? = some (.setLoading false) := by
  refine ⟨rfl, rfl, rfl, ?_⟩
  cases fetched <;> rfl

/-- C10: a fetch that resolves successfully with a `null` (or empty,
which the HTTP client parses to `null`) body ends the cycle in the
success outcome: the normalizer maps `null` to no snapshot, no error is
recorded, and `loading` is cleared. -/
theorem loadStatus_null_body_success (s0 : StoreState) :
    (loadStatus (.ok .null) s0).license = none ∧
    (loadStatus (.ok .null) s0).error = none ∧
    (loadStatus (.ok .null) s0).loading = false :=
  ⟨rfl, rfl, rfl⟩

/-- C6: `disabledReason` yields `null` exactly when the feature is
allowed; otherwise it applies the precedence no-license over
invalid-license over feature-not-granted: with no snapshot the message
says no license is installed, with an invalid snapshot the message
echoes `snapshot.status`, and with a valid snapshot the message names
the specific feature key as not granted. -/
theorem disabledReason_precedence (license : Option LicenseSnapshot)
    (k : String) (allowed : Bool) :
    (allowed = true → disabledReason license k allowed = none) ∧
    (allowed = false → license = none →
      disabledReason license k allowed = some "No license installed") ∧
    (∀ s, allowed = false → license = some s → s.isValid = false →
      disabledReason license k allowed =
        some ("License status: " ++ jsToString s.status)) ∧
    (∀ s, allowed = false → license = some s → s.isValid = true →
      disabledReason license k allowed =
        some ("Feature \x27" ++ k ++ "\x27 is not granted in this license")) := by
  refine ⟨?_, ?_, ?_, ?_⟩
  · intro ha
    simp [disabledReason, ha]
  · rintro ha rfl
    simp [disabledReason, ha]
  · rintro s ha rfl hs
    simp [disabledReason, ha, hs]
  · rintro s ha rfl hs
    simp [disabledReason, ha, hs]

/-- An expired, invalid snapshot used to instantiate the precedence
theorem. -/
def expiredSnapshot : LicenseSnapshot :=
  { sampleSnapshot with status := .str "expired", isValid := false }

/-- Witness for C6: with no snapshot the reason mentions no license;
with the expired invalid snapshot the reason echoes the status
`expired`; with the sample valid snapshot missing feature `z` the
reason names `z`. -/
theorem disabledReason_precedence_witness :
    disabledReason none "z" false = some "No license installed" ∧
    disabledReason (some expiredSnapshot) "z" false =
      some ("License status: " ++ jsToString expiredSnapshot.status) ∧
    disabledReason (some sampleSnapshot) "z" false =
      some ("Feature \x27z\x27 is not granted in this license") := by
  refine ⟨(disabledReason_precedence none "z" false).2.1 rfl rfl,
    (disabledReason_precedence (some expiredSnapshot) "z" false).2.2.1
      expiredSnapshot rfl rfl rfl, ?_⟩
  have h := (disabledReason_precedence (some sampleSnapshot) "z" false).2.2.2
    sampleSnapshot rfl rfl rfl
  rw [h]
  rfl

/-- C7: over every possible input value, the normalizer is a total pure
function — it always returns either `null` or a snapshot, and on the
same input it always returns the same output — and whenever the raw
`warnings` field is not an array it degrades to the empty sequence
rather than failing. -/
theorem normalize_total_and_warnings_guard (raw : JSVal) :
    (normalizeLicenseStatus raw = none ∨
      ∃ s, normalizeLicenseStatus raw = some s) ∧
    (∀ s, normalizeLicenseStatus raw = some s →
      (∀ xs, raw.getProp "warnings" ≠ .arr xs) → s.warnings = []) := by
  constructor
  · unfold normalizeLicenseStatus
    split
    · exact Or.inl rfl
    · exact Or.inr ⟨_, rfl⟩
  · intro s h hne
    unfold normalizeLicenseStatus at h
    split at h
    · exact absurd h (by simp)
    · injection h with h
      subst h
      cases hw : raw.getProp "warnings" <;> simp_all

/-- Witness for C7 at the wrongly-typed document (whose `warnings`
field holds a number): the built snapshot carries empty warnings. -/
theorem normalize_total_and_warnings_guard_witness :
    wrongTypedSnap.warnings = [] :=
  (normalize_total_and_warnings_guard wrongTypedRaw).2 wrongTypedSnap rfl
    (fun _ hc => JSVal.noConfusion hc)
